import Mathlib

/-!
Shallow embedding of the core logic of the Knowledge Learning platform
(`learning/models.py` and `learning/views.py`): catalog data model,
purchase-based entitlement checks, adjusted cursus pricing, the Stripe
checkout bookkeeping of `buy_cursus` / `payment_success`, and the
progress / certification engine of `view_lesson` / `validate_lesson`.

Database tables are modelled as lists of records; ORM `filter(...).exists()`
queries become `List.any`, `values_list` projections become `filterMap`/`map`,
and `get_object_or_404` becomes `List.find?` (a `none` result standing for
the 404 response).  `Decimal` prices carry two
decimal places, so they are modelled exactly as integer amounts of minor
currency units (cents): 26.00 becomes 2600.
Timestamps and audit metadata that no view logic reads
(`created_at`, `updated_at`, `purchase_date`, ...) are omitted; the
`created_by` / `updated_by` strings that the views set from
`request.user.username` are kept as a single `createdBy` field.
-/

namespace KL

/-- `Cursus` model: belongs to a `Theme` (by id) and has a catalog price. -/
structure Cursus where
  id : Nat
  themeId : Nat
  price : Int
  deriving DecidableEq

/-- `Lesson` model: belongs to a `Cursus` (by id) and has its own price. -/
structure Lesson where
  id : Nat
  cursusId : Nat
  price : Int
  deriving DecidableEq

/-- `Purchase` model: references either a cursus or a lesson (both optional
foreign keys in `models.py`), records the amount paid. -/
structure Purchase where
  userId : Nat
  cursusId : Option Nat
  lessonId : Option Nat
  amount : Int
  createdBy : String
  deriving DecidableEq

/-- `Validation` model: a (user, lesson) completion record. -/
structure Validation where
  userId : Nat
  lessonId : Nat
  createdBy : String
  deriving DecidableEq

/-- `Certification` model: a (user, theme) award record. -/
structure Certification where
  userId : Nat
  themeId : Nat
  createdBy : String
  deriving DecidableEq

/-- The requesting user (`request.user`): id, username, and the two flags the
views consult — Django authentication (via `login_required`) and the
`is_active` activation flag. -/
structure User where
  id : Nat
  username : String
  isAuthenticated : Bool
  isActive : Bool
  deriving DecidableEq

/-- The database state: one list per model class. -/
structure DB where
  cursuses : List Cursus
  lessons : List Lesson
  purchases : List Purchase
  validations : List Validation
  certifications : List Certification
  deriving DecidableEq

/-- `Lesson.objects.filter(cursus=cursus)`. -/
def lessonsOfCursus (db : DB) (cursusId : Nat) : List Lesson :=
  db.lessons.filter (fun l => l.cursusId == cursusId)

/-- `Purchase.objects.filter(utilisateur=user, lesson=lesson).exists()`. -/
def hasPurchasedLesson (db : DB) (userId lessonId : Nat) : Bool :=
  db.purchases.any (fun p => p.userId == userId && p.lessonId == some lessonId)

/-- `Purchase.objects.filter(utilisateur=user, cursus=cursus).exists()`. -/
def hasPurchasedCursus (db : DB) (userId cursusId : Nat) : Bool :=
  db.purchases.any (fun p => p.userId == userId && p.cursusId == some cursusId)

/-- The entitlement check of `view_lesson` / `validate_lesson`
(`views.py` lines 317-323 and 366-372): a purchase of the exact lesson, or a
purchase of the lesson's parent cursus. -/
def hasAccess (db : DB) (userId : Nat) (lesson : Lesson) : Bool :=
  hasPurchasedLesson db userId lesson.id || hasPurchasedCursus db userId lesson.cursusId

/-- `Purchase.objects.filter(utilisateur=user, lesson__in=lessons)
.values_list('lesson', flat=True)`: ids of lessons from `lessons` the user
bought individually. -/
def purchasedLessonIds (db : DB) (userId : Nat) (lessons : List Lesson) : List Nat :=
  (db.purchases.filter (fun p =>
      p.userId == userId &&
        (match p.lessonId with
         | some lid => lessons.any (fun l => l.id == lid)
         | none => false))).filterMap (fun p => p.lessonId)

/-- `lessons.exclude(id__in=purchased_lessons)` for the lessons of a cursus. -/
def cursusRemainingLessons (db : DB) (userId cursusId : Nat) : List Lesson :=
  let lessons := lessonsOfCursus db cursusId
  let purchased := purchasedLessonIds db userId lessons
  lessons.filter (fun l => !(purchased.contains l.id))

/-- Adjusted cursus price as computed by `buy_cursus` (`views.py` 122-132):
the sum of the remaining lessons' prices when the user owns some lessons and
some remain, and the catalog price of the cursus otherwise. -/
def buyCursusAdjustedPrice (db : DB) (userId : Nat) (cursus : Cursus) : Int :=
  let purchased := purchasedLessonIds db userId (lessonsOfCursus db cursus.id)
  let remaining := cursusRemainingLessons db userId cursus.id
  if !remaining.isEmpty && !purchased.isEmpty then
    (remaining.map (fun l => l.price)).sum
  else
    cursus.price

/-- Adjusted cursus price as recomputed by `payment_success` (`views.py`
255-262): the sum of the remaining lessons' prices when any remain, else 0. -/
def paymentSuccessAdjustedPrice (db : DB) (userId : Nat) (cursus : Cursus) : Int :=
  let remaining := cursusRemainingLessons db userId cursus.id
  if !remaining.isEmpty then (remaining.map (fun l => l.price)).sum else 0

/-- The spec's phrase "sum of the prices of the remaining (unowned) lessons":
lessons of the cursus with no individual Purchase record for this user. -/
def unownedLessonPriceSum (db : DB) (userId cursusId : Nat) : Int :=
  (((lessonsOfCursus db cursusId).filter
      (fun l => !(hasPurchasedLesson db userId l.id))).map (fun l => l.price)).sum

/-- `request.session['pending_purchase']`: the purchase intent kind
(the string `'lesson'` or `'cursus'`) and target id. -/
structure PendingPurchase where
  ptype : String
  targetId : Nat
  deriving DecidableEq

/-- The server-side session keys used by checkout:
`stripe_session_id` and `pending_purchase`. -/
structure SessionState where
  stripeSessionId : Option String
  pendingPurchase : Option PendingPurchase
  deriving DecidableEq

/-- Result of `stripe.checkout.Session.retrieve`: either a session carrying a
`payment_status` string, or a raised `stripe.error.StripeError`. -/
inductive StripeRetrieve where
  | ok (paymentStatus : String)
  | stripeError
  deriving DecidableEq

/-- Result of `stripe.checkout.Session.create`: a session (id and redirect
url) or a raised exception (modelled as `none`). -/
structure StripeSession where
  id : String
  url : String
  deriving DecidableEq

/-- Message level attached to a redirect (`messages.error` / `messages.success`
/ `messages.info`). -/
inductive MsgLevel where
  | error
  | success
  | info
  deriving DecidableEq

/-- The observable HTTP outcome of a view. -/
inductive Outcome where
  | redirectLogin
  | redirectHome (lvl : MsgLevel)
  | redirectCatalog (lvl : MsgLevel)
  | redirectViewLesson (lessonId : Nat)
  | redirectStripe (sessionUrl : String)
  | renderPage
  | notFound
  deriving DecidableEq

/-- Full result of a checkout view: database, session state, outcome. -/
structure StepResult where
  db : DB
  session : SessionState
  outcome : Outcome
  deriving DecidableEq

/-- `request.session.pop('stripe_session_id', None)` and
`request.session.pop('pending_purchase', None)`. -/
def clearPending (_s : SessionState) : SessionState :=
  ⟨none, none⟩

/-- `buy_cursus` (`views.py` 100-159): `login_required`, 404 lookup,
activation check, already-owned check, adjusted price computation, and on
POST the creation of a Stripe session plus storage of the pending intent. -/
def buy_cursus (db : DB) (sess : SessionState) (user : User) (cursusId : Nat)
    (isPost : Bool) (createSession : Int → Option StripeSession) : StepResult :=
  if !user.isAuthenticated then ⟨db, sess, .redirectLogin⟩
  else
    match db.cursuses.find? (fun c => c.id == cursusId) with
    | none => ⟨db, sess, .notFound⟩
    | some cursus =>
      if !user.isActive then ⟨db, sess, .redirectHome .error⟩
      else if hasPurchasedCursus db user.id cursus.id then
        ⟨db, sess, .redirectCatalog .error⟩
      else
        let adjusted := buyCursusAdjustedPrice db user.id cursus
        if isPost then
          match createSession adjusted with
          | some s => ⟨db, ⟨some s.id, some ⟨"cursus", cursusId⟩⟩, .redirectStripe s.url⟩
          | none => ⟨db, sess, .redirectHome .error⟩
        else
          ⟨db, sess, .renderPage⟩

/-- `payment_success` (`views.py` 216-283).  No `login_required` decorator and
no `is_active` check.  The Stripe retrieval and the recording logic sit in a
`try` that catches only `StripeError`; the two session keys are popped after
the `try` block, so only on paths that do not return early. -/
def payment_success (db : DB) (sess : SessionState) (user : User)
    (retrieve : String → StripeRetrieve) : StepResult :=
  match sess.stripeSessionId, sess.pendingPurchase with
  | some sid, some pending =>
    (match retrieve sid with
     | .stripeError => ⟨db, sess, .redirectHome .error⟩
     | .ok status =>
       if !(status == "paid") then
         ⟨db, sess, .redirectHome .error⟩
       else if pending.ptype == "lesson" then
         match db.lessons.find? (fun l => l.id == pending.targetId) with
         | none => ⟨db, sess, .notFound⟩
         | some lesson =>
           if !(hasPurchasedLesson db user.id lesson.id) then
             ⟨{ db with purchases := db.purchases ++
                  [⟨user.id, none, some lesson.id, lesson.price, user.username⟩] },
              clearPending sess, .redirectHome .success⟩
           else
             ⟨db, clearPending sess, .redirectHome .info⟩
       else if pending.ptype == "cursus" then
         match db.cursuses.find? (fun c => c.id == pending.targetId) with
         | none => ⟨db, sess, .notFound⟩
         | some cursus =>
           if !(hasPurchasedCursus db user.id cursus.id) then
             ⟨{ db with purchases := db.purchases ++
                  [⟨user.id, some cursus.id, none,
                    paymentSuccessAdjustedPrice db user.id cursus, user.username⟩] },
              clearPending sess, .redirectHome .success⟩
           else
             ⟨db, clearPending sess, .redirectHome .info⟩
       else
         ⟨db, sess, .redirectHome .error⟩)
  | _, _ => ⟨db, sess, .redirectHome .error⟩

/-- `Validation.objects.filter(utilisateur=user, lesson=lesson).exists()`. -/
def isCompleted (db : DB) (userId lessonId : Nat) : Bool :=
  db.validations.any (fun v => v.userId == userId && v.lessonId == lessonId)

/-- `view_lesson` (`views.py` 301-347): entitlement check, then on a
`mark_completed` POST the idempotent creation of the Validation record. -/
def view_lesson (db : DB) (user : User) (lessonId : Nat)
    (markCompletedPost : Bool) : DB × Outcome :=
  if !user.isAuthenticated then (db, .redirectLogin)
  else
    match db.lessons.find? (fun l => l.id == lessonId) with
    | none => (db, .notFound)
    | some lesson =>
      if !user.isActive then (db, .redirectHome .error)
      else if !(hasAccess db user.id lesson) then (db, .redirectHome .error)
      else if markCompletedPost then
        if !(isCompleted db user.id lesson.id) then
          ({ db with validations :=
              db.validations ++ [⟨user.id, lesson.id, user.username⟩] },
           .redirectViewLesson lesson.id)
        else
          (db, .redirectViewLesson lesson.id)
      else
        (db, .renderPage)

/-- `cursus__theme=theme` membership: the lesson's cursus belongs to the
theme. -/
def lessonInTheme (db : DB) (themeId : Nat) (l : Lesson) : Bool :=
  db.cursuses.any (fun c => c.id == l.cursusId && c.themeId == themeId)

/-- `Lesson.objects.filter(cursus__theme=theme).values_list('id', flat=True)`. -/
def themeLessonIds (db : DB) (themeId : Nat) : List Nat :=
  (db.lessons.filter (fun l => lessonInTheme db themeId l)).map (fun l => l.id)

/-- `Validation.objects.filter(utilisateur=user, lesson__cursus__theme=theme)
.values_list('lesson', flat=True).distinct()`. -/
def validatedThemeLessonIds (db : DB) (userId themeId : Nat) : List Nat :=
  ((db.validations.filter (fun v =>
      v.userId == userId &&
        db.lessons.any (fun l => l.id == v.lessonId && lessonInTheme db themeId l))).map
    (fun v => v.lessonId)).dedup

/-- Python `set(a) == set(b)` on two id lists. -/
def sameIdSet (a b : List Nat) : Bool :=
  a.all (fun x => b.contains x) && b.all (fun x => a.contains x)

/-- The theme-completion test of `validate_lesson` (`views.py` 398-405). -/
def themeComplete (db : DB) (userId themeId : Nat) : Bool :=
  sameIdSet (themeLessonIds db themeId) (validatedThemeLessonIds db userId themeId)

/-- `Certification.objects.filter(utilisateur=user, theme=theme).exists()`. -/
def certExists (db : DB) (userId themeId : Nat) : Bool :=
  db.certifications.any (fun c => c.userId == userId && c.themeId == themeId)

/-- `Certification.objects.get_or_create(utilisateur=user, theme=theme, ...)`. -/
def certGetOrCreate (db : DB) (userId themeId : Nat) (username : String) : DB :=
  if certExists db userId themeId then db
  else { db with certifications := db.certifications ++ [⟨userId, themeId, username⟩] }

/-- `validate_lesson` (`views.py` 350-420): entitlement check, completion
precondition, and on POST the theme-completion test issuing the Certification.
(The cursus-completion test at lines 389-396 only emits a success message and
touches no record, so it does not appear in the state transition.) -/
def validate_lesson (db : DB) (user : User) (lessonId : Nat)
    (isPost : Bool) : DB × Outcome :=
  if !user.isAuthenticated then (db, .redirectLogin)
  else
    match db.lessons.find? (fun l => l.id == lessonId) with
    | none => (db, .notFound)
    | some lesson =>
      if !user.isActive then (db, .redirectHome .error)
      else if !(hasAccess db user.id lesson) then (db, .redirectHome .error)
      else if !(isCompleted db user.id lesson.id) then
        (db, .redirectViewLesson lesson.id)
      else if isPost then
        match db.cursuses.find? (fun c => c.id == lesson.cursusId) with
        | none => (db, .notFound)
        | some cursus =>
          if themeComplete db user.id cursus.themeId then
            (certGetOrCreate db user.id cursus.themeId user.username,
             .redirectHome .success)
          else
            (db, .redirectHome .success)
      else
        (db, .renderPage)

/-! Concrete states used for counterexamples and witnesses: the spec's own
pricing scenario (a cursus at 50.00 with two lessons at 26.00 each), with
varying sets of individually purchased lessons. -/

/-- Catalog cursus priced 50.00 (5000 cents) under theme 1. -/
def exCursus : Cursus := ⟨1, 1, 5000⟩

/-- First lesson of the cursus, priced 26.00. -/
def exLesson1 : Lesson := ⟨1, 1, 2600⟩

/-- Second lesson of the cursus, priced 26.00. -/
def exLesson2 : Lesson := ⟨2, 1, 2600⟩

/-- An authenticated, activated user. -/
def exUser : User := ⟨7, "alice", true, true⟩

/-- The same account presented unauthenticated and not activated. -/
def exGhostUser : User := ⟨7, "alice", false, false⟩

/-- Database where user 7 owns no lesson of the cursus. -/
def dbNoneOwned : DB := ⟨[exCursus], [exLesson1, exLesson2], [], [], []⟩

/-- Database where user 7 individually owns lesson 1 only. -/
def dbOneOwned : DB :=
  ⟨[exCursus], [exLesson1, exLesson2],
   [⟨7, none, some 1, 2600, "alice"⟩], [], []⟩

/-- Database where user 7 individually owns both lessons. -/
def dbAllOwned : DB :=
  ⟨[exCursus], [exLesson1, exLesson2],
   [⟨7, none, some 1, 2600, "alice"⟩, ⟨7, none, some 2, 2600, "alice"⟩], [], []⟩

/-- Database where user 7 owns the cursus and has validated both lessons,
so theme 1 is complete but not yet certified. -/
def dbThemeDone : DB :=
  ⟨[exCursus], [exLesson1, exLesson2],
   [⟨7, some 1, none, 5000, "alice"⟩],
   [⟨7, 1, "alice"⟩, ⟨7, 2, "alice"⟩], []⟩

/-- Session state holding a pending cursus purchase intent. -/
def exSess : SessionState := ⟨some "cs_test", some ⟨"cursus", 1⟩⟩

/-- Stripe stub: retrieval finds the session paid. -/
def paidRetrieve : String → StripeRetrieve := fun _ => .ok "paid"

/-- Stripe stub: retrieval finds the session unpaid. -/
def unpaidRetrieve : String → StripeRetrieve := fun _ => .ok "unpaid"

/-- Stripe stub: retrieval raises a `StripeError`. -/
def errRetrieve : String → StripeRetrieve := fun _ => .stripeError

/-! Helper lemmas shared by the claim theorems. -/

/-- `certGetOrCreate` only ever appends, so the old certification list is a
sublist of the new one. -/
theorem certGetOrCreate_sublist (db : DB) (userId themeId : Nat) (name : String) :
    List.Sublist db.certifications
      (certGetOrCreate db userId themeId name).certifications := by
  unfold certGetOrCreate
  split
  · exact List.Sublist.refl _
  · exact List.sublist_append_left _ _

/-- Claim C1: the entitlement check of the lesson-viewing and
lesson-validation operations grants access exactly when a Purchase record
exists for the lesson itself or for its parent cursus, and both operations
turn the user away with an error when it denies access. -/
theorem access_iff_lesson_or_cursus_purchase (db : DB) (user : User)
    (lesson : Lesson)
    (hauth : user.isAuthenticated = true) (hact : user.isActive = true)
    (hfind : db.lessons.find? (fun l => l.id == lesson.id) = some lesson) :
    (hasAccess db user.id lesson = true ↔
      (∃ p ∈ db.purchases, p.userId = user.id ∧ p.lessonId = some lesson.id) ∨
      (∃ p ∈ db.purchases, p.userId = user.id ∧
        p.cursusId = some lesson.cursusId)) ∧
    (hasAccess db user.id lesson = false →
      view_lesson db user lesson.id true = (db, .redirectHome .error) ∧
      validate_lesson db user lesson.id true = (db, .redirectHome .error)) := by
  constructor
  · unfold hasAccess hasPurchasedLesson hasPurchasedCursus
    simp only [Bool.or_eq_true, List.any_eq_true, Bool.and_eq_true, beq_iff_eq]
  · intro hna
    unfold view_lesson validate_lesson
    simp [hauth, hact, hfind, hna]

/-- Witness for C1 at a concrete state: user 7 owns lesson 1 individually,
hence has access to it. -/
theorem access_iff_lesson_or_cursus_purchase_witness :
    hasAccess dbOneOwned 7 exLesson1 = true :=
  (access_iff_lesson_or_cursus_purchase dbOneOwned exUser exLesson1 rfl rfl
      (by decide)).1.mpr
    (Or.inl ⟨⟨7, none, some 1, 2600, "alice"⟩, by decide, rfl, rfl⟩)

/-- Claim C9: certifications are monotonic — no run of `validate_lesson`
ever removes an existing Certification record. -/
theorem certification_monotonic (db : DB) (user : User) (lessonId : Nat)
    (isPost : Bool) :
    List.Sublist db.certifications
      (validate_lesson db user lessonId isPost).1.certifications := by
  unfold validate_lesson
  repeat' split
  all_goals first
    | exact List.Sublist.refl _
    | exact certGetOrCreate_sublist _ _ _ _

/-- For a lesson of the cursus, membership of its id in the
`lesson__in`-restricted purchase projection is exactly an individual
purchase of that lesson. -/
theorem purchasedIds_contains_eq (db : DB) (u cid : Nat) (l : Lesson)
    (hl : l ∈ lessonsOfCursus db cid) :
    (purchasedLessonIds db u (lessonsOfCursus db cid)).contains l.id =
      hasPurchasedLesson db u l.id := by
  rw [Bool.eq_iff_iff]
  unfold purchasedLessonIds hasPurchasedLesson
  simp only [List.contains_eq_any_beq, List.any_eq_true, List.mem_filterMap,
    List.mem_filter, beq_iff_eq]
  constructor
  · rintro ⟨x, ⟨p, ⟨hpmem, hq⟩, hpl⟩, hx⟩
    subst hx
    refine ⟨p, hpmem, ?_⟩
    rw [Bool.and_eq_true] at hq
    rw [Bool.and_eq_true]
    exact ⟨hq.1, by rw [hpl]; exact beq_self_eq_true _⟩
  · rintro ⟨p, hpmem, hq⟩
    rw [Bool.and_eq_true] at hq
    obtain ⟨hu, hpl⟩ := hq
    rw [beq_iff_eq] at hpl
    refine ⟨l.id, ⟨p, ⟨hpmem, ?_⟩, hpl⟩, rfl⟩
    rw [Bool.and_eq_true]
    refine ⟨hu, ?_⟩
    simp only [hpl]
    exact List.any_eq_true.mpr ⟨l, hl, beq_self_eq_true _⟩

/-- The code's `remaining_lessons` queryset equals the spec's "remaining
(unowned) lessons": the lessons of the cursus without an individual
Purchase record. -/
theorem cursusRemainingLessons_eq_unowned (db : DB) (u cid : Nat) :
    cursusRemainingLessons db u cid =
      (lessonsOfCursus db cid).filter
        (fun l => !(hasPurchasedLesson db u l.id)) := by
  unfold cursusRemainingLessons
  refine List.filter_congr ?_
  intro l hl
  rw [purchasedIds_contains_eq db u cid l hl]

/-- Claim C2 counterexample: for the spec's own scenario — a cursus with
catalog price 50.00 holding two lessons at 26.00 each, none individually
owned — `buy_cursus` charges the catalog price 50.00 while
`payment_success` records 52.00, so the two computations are not equal. -/
theorem adjusted_price_mismatch_none_owned :
    buyCursusAdjustedPrice dbNoneOwned 7 exCursus = 5000 ∧
    paymentSuccessAdjustedPrice dbNoneOwned 7 exCursus = 5200 ∧
    ¬(buyCursusAdjustedPrice dbNoneOwned 7 exCursus =
        paymentSuccessAdjustedPrice dbNoneOwned 7 exCursus) := by decide

/-- Claim C2 amended: the adjusted price computed by `buy_cursus` and the one
recomputed by `payment_success` agree whenever the user individually owns
some but not all lessons of the cursus (both then charge the sum of the
remaining lessons' prices); when no lesson is owned `buy_cursus` uses the
catalog price while `payment_success` uses the lesson-price sum, and when all
are owned `buy_cursus` uses the catalog price while `payment_success`
uses 0. -/
theorem adjusted_price_agree_when_partially_owned (db : DB) (u : Nat)
    (c : Cursus)
    (hp : (purchasedLessonIds db u (lessonsOfCursus db c.id)).isEmpty = false)
    (hr : (cursusRemainingLessons db u c.id).isEmpty = false) :
    buyCursusAdjustedPrice db u c = paymentSuccessAdjustedPrice db u c := by
  unfold buyCursusAdjustedPrice paymentSuccessAdjustedPrice
  simp [hp, hr]

/-- Witness for the amended C2 at a concrete state: user 7 owns one of the
two lessons, and both computations price the cursus at the remaining 26.00. -/
theorem adjusted_price_agree_when_partially_owned_witness :
    buyCursusAdjustedPrice dbOneOwned 7 exCursus =
      paymentSuccessAdjustedPrice dbOneOwned 7 exCursus :=
  adjusted_price_agree_when_partially_owned dbOneOwned 7 exCursus
    (by decide) (by decide)

/-- Claim C3 counterexample: when the user already individually owns all
lessons of the cursus, `buy_cursus` does not price it at 0 — it falls back to
the catalog price 50.00. -/
theorem all_owned_buy_price_not_zero :
    (cursusRemainingLessons dbAllOwned 7 exCursus.id).isEmpty = true ∧
    buyCursusAdjustedPrice dbAllOwned 7 exCursus = 5000 ∧
    ¬(buyCursusAdjustedPrice dbAllOwned 7 exCursus = 0) := by decide

/-- Claim C3 amended: if the user owns some but not all lessons, both
computations give the sum of the remaining (unowned) lessons' prices; if the
user owns none, `buy_cursus` gives the catalog price while `payment_success`
gives the sum of all the lessons' prices; if the user owns all of them,
`payment_success` gives 0 while `buy_cursus` gives the catalog price. -/
theorem adjusted_price_cases (db : DB) (u : Nat) (c : Cursus) :
    ((purchasedLessonIds db u (lessonsOfCursus db c.id)).isEmpty = false →
      (cursusRemainingLessons db u c.id).isEmpty = false →
      buyCursusAdjustedPrice db u c = unownedLessonPriceSum db u c.id ∧
      paymentSuccessAdjustedPrice db u c = unownedLessonPriceSum db u c.id) ∧
    ((purchasedLessonIds db u (lessonsOfCursus db c.id)).isEmpty = true →
      buyCursusAdjustedPrice db u c = c.price) ∧
    ((cursusRemainingLessons db u c.id).isEmpty = false →
      paymentSuccessAdjustedPrice db u c = unownedLessonPriceSum db u c.id) ∧
    ((cursusRemainingLessons db u c.id).isEmpty = true →
      buyCursusAdjustedPrice db u c = c.price ∧
      paymentSuccessAdjustedPrice db u c = 0) := by
  have hsum : (List.map (fun l => l.price) (cursusRemainingLessons db u c.id)).sum
      = unownedLessonPriceSum db u c.id := by
    rw [cursusRemainingLessons_eq_unowned]
    rfl
  refine ⟨fun hp hr => ?_, fun hp => ?_, fun hr => ?_, fun hr => ?_⟩
  · constructor
    · unfold buyCursusAdjustedPrice
      simp only [hp, hr, Bool.not_false, Bool.and_self, if_true]
      exact hsum
    · unfold paymentSuccessAdjustedPrice
      simp only [hr, Bool.not_false, if_true]
      exact hsum
  · unfold buyCursusAdjustedPrice
    simp [hp]
  · unfold paymentSuccessAdjustedPrice
    simp only [hr, Bool.not_false, if_true]
    exact hsum
  · constructor
    · unfold buyCursusAdjustedPrice
      simp [hr]
    · unfold paymentSuccessAdjustedPrice
      simp [hr]

/-- Witness for the amended C3 at a concrete state: with one of two lessons
owned, both views price the cursus at the unowned lesson's 26.00. -/
theorem adjusted_price_cases_witness :
    buyCursusAdjustedPrice dbOneOwned 7 exCursus =
      unownedLessonPriceSum dbOneOwned 7 exCursus.id ∧
    paymentSuccessAdjustedPrice dbOneOwned 7 exCursus =
      unownedLessonPriceSum dbOneOwned 7 exCursus.id :=
  (adjusted_price_cases dbOneOwned 7 exCursus).1 (by decide) (by decide)

/-- Case analysis of `payment_success`: either the run reached the recording
stage — session keys popped, outcome a success (with exactly one Purchase
appended) or an already-purchased info no-op (database untouched) — or it
returned early with database and session state both unchanged and an error
or 404 outcome. -/
theorem payment_success_shapes (db : DB) (sess : SessionState) (user : User)
    (retrieve : String → StripeRetrieve) :
    ((payment_success db sess user retrieve).session = ⟨none, none⟩ ∧
      (((payment_success db sess user retrieve).outcome =
            .redirectHome .success ∧
         ∃ p, (payment_success db sess user retrieve).db.purchases =
           db.purchases ++ [p]) ∨
       ((payment_success db sess user retrieve).outcome = .redirectHome .info ∧
         (payment_success db sess user retrieve).db = db))) ∨
    ((payment_success db sess user retrieve).db = db ∧
      (payment_success db sess user retrieve).session = sess ∧
      ((payment_success db sess user retrieve).outcome = .redirectHome .error ∨
       (payment_success db sess user retrieve).outcome = .notFound)) := by
  unfold payment_success
  repeat' split
  all_goals simp [clearPending]

/-- With both session keys absent, `payment_success` is the
missing-session error redirect and changes nothing. -/
theorem payment_success_cleared (db : DB) (user : User)
    (retrieve : String → StripeRetrieve) :
    payment_success db ⟨none, none⟩ user retrieve =
      ⟨db, ⟨none, none⟩, .redirectHome .error⟩ := rfl

/-- Claim C4: a Certification for (user, theme) is created by
`validate_lesson` (in its certification-checking stage, reached on POST by an
active user with access to a completed lesson) exactly when the set of lesson
ids under the theme equals the set of lesson ids the user has validated
there, and — creation being get-or-create — only when no Certification for
(user, theme) exists yet, so one is never duplicated. -/
theorem certification_created_iff_theme_complete (db : DB) (user : User)
    (lesson : Lesson) (cursus : Cursus)
    (hauth : user.isAuthenticated = true) (hact : user.isActive = true)
    (hfl : db.lessons.find? (fun l => l.id == lesson.id) = some lesson)
    (hfc : db.cursuses.find? (fun c => c.id == lesson.cursusId) = some cursus)
    (hacc : hasAccess db user.id lesson = true)
    (hcomp : isCompleted db user.id lesson.id = true) :
    (validate_lesson db user lesson.id true).1.certifications =
      (if themeComplete db user.id cursus.themeId &&
          !(certExists db user.id cursus.themeId) then
        db.certifications ++ [⟨user.id, cursus.themeId, user.username⟩]
      else db.certifications) := by
  by_cases h1 : themeComplete db user.id cursus.themeId = true <;>
    by_cases h2 : certExists db user.id cursus.themeId = true <;>
      simp [validate_lesson, certGetOrCreate, hauth, hact, hfl, hfc, hacc,
        hcomp, h1, h2]

/-- Witness for C4 at a concrete state: user 7 has validated both lessons of
theme 1 and holds no certification yet, so validating lesson 1 issues it. -/
theorem certification_created_iff_theme_complete_witness :
    (validate_lesson dbThemeDone exUser 1 true).1.certifications =
      (if themeComplete dbThemeDone 7 1 && !(certExists dbThemeDone 7 1) then
        dbThemeDone.certifications ++ [⟨7, 1, "alice"⟩]
      else dbThemeDone.certifications) :=
  certification_created_iff_theme_complete dbThemeDone exUser exLesson1
    exCursus rfl rfl (by decide) (by decide) (by decide) (by decide)

/-- Claim C5 counterexample: after a first successful finalization, the
pending-intent state is gone, so literally running `payment_success` a second
time for the same confirmed session takes the missing-session path and shows
an error-level message — not a success-no-op — though the Purchase row count
is indeed exactly one. -/
theorem second_finalize_errors :
    (payment_success (payment_success dbNoneOwned exSess exUser paidRetrieve).db
        (payment_success dbNoneOwned exSess exUser paidRetrieve).session
        exUser paidRetrieve).outcome = .redirectHome .error ∧
    ¬((payment_success
          (payment_success dbNoneOwned exSess exUser paidRetrieve).db
          (payment_success dbNoneOwned exSess exUser paidRetrieve).session
          exUser paidRetrieve).outcome = .redirectHome .success ∨
      (payment_success
          (payment_success dbNoneOwned exSess exUser paidRetrieve).db
          (payment_success dbNoneOwned exSess exUser paidRetrieve).session
          exUser paidRetrieve).outcome = .redirectHome .info) ∧
    (payment_success (payment_success dbNoneOwned exSess exUser paidRetrieve).db
        (payment_success dbNoneOwned exSess exUser paidRetrieve).session
        exUser paidRetrieve).db.purchases.length = 1 := by decide

/-- Claim C5 amended: running `payment_success` twice yields exactly one
Purchase row — a second run never writes anything more — but because the
first successful run clears the pending-intent state, the second run takes
the missing-session error path rather than being a success-no-op. -/
theorem finalize_twice_one_purchase (db : DB) (sess : SessionState)
    (user : User) (retrieve : String → StripeRetrieve) :
    (payment_success (payment_success db sess user retrieve).db
        (payment_success db sess user retrieve).session user retrieve).db =
      (payment_success db sess user retrieve).db ∧
    ((payment_success db sess user retrieve).outcome = .redirectHome .success →
      (payment_success db sess user retrieve).db.purchases.length =
        db.purchases.length + 1 ∧
      (payment_success (payment_success db sess user retrieve).db
          (payment_success db sess user retrieve).session user
          retrieve).outcome = .redirectHome .error) := by
  rcases payment_success_shapes db sess user retrieve with
    ⟨hclear, hcase⟩ | ⟨hdb, hsess, hout⟩
  · refine ⟨?_, fun hsucc => ⟨?_, ?_⟩⟩
    · rw [hclear, payment_success_cleared]
    · rcases hcase with ⟨_, p, hp⟩ | ⟨hinfo, _⟩
      · rw [hp, List.length_append, List.length_singleton]
      · rw [hinfo] at hsucc
        simp at hsucc
    · rw [hclear, payment_success_cleared]
  · refine ⟨?_, fun hsucc => ?_⟩
    · rw [hdb, hsess]
      exact hdb
    · rcases hout with h1 | h1 <;> (rw [h1] at hsucc; simp at hsucc)

/-- Witness for the amended C5 at a concrete state: the first run appends the
single Purchase row and the second run is the missing-session error path. -/
theorem finalize_twice_one_purchase_witness :
    (payment_success dbNoneOwned exSess exUser
        paidRetrieve).db.purchases.length =
      dbNoneOwned.purchases.length + 1 ∧
    (payment_success (payment_success dbNoneOwned exSess exUser paidRetrieve).db
        (payment_success dbNoneOwned exSess exUser paidRetrieve).session
        exUser paidRetrieve).outcome = .redirectHome .error :=
  (finalize_twice_one_purchase dbNoneOwned exSess exUser paidRetrieve).2
    (by decide)

/-- Claim C6 counterexample: on the not-paid path `payment_success` returns
before popping the session keys, so the pending-intent state is NOT cleared
on every path through the confirmation handler. -/
theorem unpaid_keeps_pending_state :
    (payment_success dbNoneOwned exSess exUser unpaidRetrieve).outcome =
      .redirectHome .error ∧
    (payment_success dbNoneOwned exSess exUser unpaidRetrieve).session =
      exSess ∧
    ¬((payment_success dbNoneOwned exSess exUser unpaidRetrieve).session =
        ⟨none, none⟩) := by decide

/-- Claim C6 amended: the pending-intent session state is cleared exactly on
the paths that reach the recording stage (Purchase created, or
already-purchased info no-op); the missing-state, not-paid, invalid-intent
and provider-error paths all return early leaving the stored state — and the
database — unchanged. -/
theorem pending_cleared_iff_recorded (db : DB) (sess : SessionState)
    (user : User) (retrieve : String → StripeRetrieve) :
    ((payment_success db sess user retrieve).session = ⟨none, none⟩ ∨
     (payment_success db sess user retrieve).session = sess) ∧
    (((payment_success db sess user retrieve).outcome =
        .redirectHome .success ∨
      (payment_success db sess user retrieve).outcome = .redirectHome .info) →
      (payment_success db sess user retrieve).session = ⟨none, none⟩) ∧
    (((payment_success db sess user retrieve).outcome = .redirectHome .error ∨
      (payment_success db sess user retrieve).outcome = .notFound) →
      (payment_success db sess user retrieve).session = sess ∧
      (payment_success db sess user retrieve).db = db) := by
  rcases payment_success_shapes db sess user retrieve with
    ⟨hclear, hcase⟩ | ⟨hdb, hsess, hout⟩
  · refine ⟨Or.inl hclear, fun _ => hclear, fun hbad => ?_⟩
    rcases hcase with ⟨h1, _⟩ | ⟨h1, _⟩ <;> rcases hbad with h2 | h2 <;>
      (rw [h1] at h2; simp at h2)
  · refine ⟨Or.inr hsess, fun hbad => ?_, fun _ => ⟨hsess, hdb⟩⟩
    rcases hout with h1 | h1 <;> rcases hbad with h2 | h2 <;>
      (rw [h1] at h2; simp at h2)

/-- Witness for the amended C6 at a concrete state: a paid session with a
valid pending intent reaches the recording stage and the keys are popped. -/
theorem pending_cleared_iff_recorded_witness :
    (payment_success dbNoneOwned exSess exUser paidRetrieve).session =
      ⟨none, none⟩ :=
  (pending_cleared_iff_recorded dbNoneOwned exSess exUser paidRetrieve).2.1
    (Or.inl (by decide))

/-- Claim C7: `payment_success` writes no Purchase when the pending-intent
session state is missing, when the provider raises a `StripeError` during
verification, or when the retrieved session's status is not "paid": in each
case the result is the error redirect with database and stored session state
both unchanged. -/
theorem finalize_error_paths_write_nothing (db : DB) (sess : SessionState)
    (user : User) (retrieve : String → StripeRetrieve) :
    ((sess.stripeSessionId = none ∨ sess.pendingPurchase = none) →
      payment_success db sess user retrieve =
        ⟨db, sess, .redirectHome .error⟩) ∧
    (∀ sid pending, sess.stripeSessionId = some sid →
      sess.pendingPurchase = some pending → retrieve sid = .stripeError →
      payment_success db sess user retrieve =
        ⟨db, sess, .redirectHome .error⟩) ∧
    (∀ sid pending status, sess.stripeSessionId = some sid →
      sess.pendingPurchase = some pending → retrieve sid = .ok status →
      (status == "paid") = false →
      payment_success db sess user retrieve =
        ⟨db, sess, .redirectHome .error⟩) := by
  obtain ⟨osid, opending⟩ := sess
  refine ⟨fun hmiss => ?_, fun sid pending hs hp hr => ?_,
    fun sid pending status hs hp hr hst => ?_⟩
  · rcases hmiss with h | h <;> dsimp only at h <;> subst h
    · cases opending <;> rfl
    · cases osid <;> rfl
  · dsimp only at hs hp
    subst hs
    subst hp
    simp [payment_success, hr]
  · dsimp only at hs hp
    subst hs
    subst hp
    simp [payment_success, hr, hst]

/-- Witness for C7 at a concrete state: a provider error during verification
leaves database and session state untouched and shows the error. -/
theorem finalize_error_paths_write_nothing_witness :
    payment_success dbNoneOwned exSess exUser errRetrieve =
      ⟨dbNoneOwned, exSess, .redirectHome .error⟩ :=
  (finalize_error_paths_write_nothing dbNoneOwned exSess exUser
    errRetrieve).2.1 "cs_test" ⟨"cursus", 1⟩ rfl rfl rfl

/-- Claim C8: for an active user on an accessible lesson, `validate_lesson`
(1) denies without purchase-based access, (2) errors back to the
mark-complete step when the lesson is not completed — so VALIDATED is only
reachable from COMPLETED — and (3) on the validation path the Validation
record for (user, lesson) exists afterwards with the validation table left
without any duplicate (the idempotent get-or-create outcome). -/
theorem validated_only_from_completed (db : DB) (user : User) (lesson : Lesson)
    (hauth : user.isAuthenticated = true) (hact : user.isActive = true)
    (hfl : db.lessons.find? (fun l => l.id == lesson.id) = some lesson) :
    (hasAccess db user.id lesson = false →
      validate_lesson db user lesson.id true = (db, .redirectHome .error)) ∧
    (hasAccess db user.id lesson = true →
      isCompleted db user.id lesson.id = false →
      validate_lesson db user lesson.id true =
        (db, .redirectViewLesson lesson.id)) ∧
    (hasAccess db user.id lesson = true →
      isCompleted db user.id lesson.id = true →
      isCompleted (validate_lesson db user lesson.id true).1 user.id
          lesson.id = true ∧
      (validate_lesson db user lesson.id true).1.validations =
        db.validations) := by
  refine ⟨fun hna => ?_, fun hacc hnc => ?_, fun hacc hcomp => ?_⟩
  · simp [validate_lesson, hauth, hact, hfl, hna]
  · simp [validate_lesson, hauth, hact, hfl, hacc, hnc]
  · have hval : (validate_lesson db user lesson.id true).1.validations =
        db.validations := by
      unfold validate_lesson certGetOrCreate
      simp only [hauth, hact, hfl, hacc, hcomp, Bool.not_true, Bool.not_false,
        Bool.false_eq_true, if_false, if_true]
      repeat' split
      all_goals rfl
    have hsame : isCompleted (validate_lesson db user lesson.id true).1
        user.id lesson.id = isCompleted db user.id lesson.id := by
      unfold isCompleted
      rw [hval]
    exact ⟨by rw [hsame]; exact hcomp, hval⟩

/-- Witness for C8 at a concrete state: user 7 validated lesson 1 already,
so validating keeps the Validation record present and adds no duplicate. -/
theorem validated_only_from_completed_witness :
    isCompleted (validate_lesson dbThemeDone exUser 1 true).1 7 1 = true ∧
    (validate_lesson dbThemeDone exUser 1 true).1.validations =
      dbThemeDone.validations :=
  (validated_only_from_completed dbThemeDone exUser exLesson1 rfl rfl
    (by decide)).2.2 (by decide) (by decide)

/-- Claim C10: `payment_success` performs no authentication or activation
check — its result is identical for any two users sharing id and username
regardless of their authentication/activation flags, and an unauthenticated,
non-activated user with valid pending-intent state and a paid session gets a
Purchase recorded — whereas `buy_cursus` turns away unauthenticated users at
the login redirect and non-activated users with an error. -/
theorem finalize_skips_auth_and_activation :
    (∀ (db : DB) (sess : SessionState) (retrieve : String → StripeRetrieve)
        (i : Nat) (name : String) (a₁ b₁ a₂ b₂ : Bool),
      payment_success db sess ⟨i, name, a₁, b₁⟩ retrieve =
        payment_success db sess ⟨i, name, a₂, b₂⟩ retrieve) ∧
    (payment_success dbNoneOwned exSess exGhostUser
        paidRetrieve).db.purchases.length = 1 ∧
    (∀ (db : DB) (sess : SessionState) (cursusId : Nat) (isPost : Bool)
        (create : Int → Option StripeSession) (u : User),
      u.isAuthenticated = false →
      buy_cursus db sess u cursusId isPost create =
        ⟨db, sess, .redirectLogin⟩) ∧
    (∀ (db : DB) (sess : SessionState) (cursusId : Nat) (isPost : Bool)
        (create : Int → Option StripeSession) (u : User) (c : Cursus),
      u.isAuthenticated = true → u.isActive = false →
      db.cursuses.find? (fun x => x.id == cursusId) = some c →
      buy_cursus db sess u cursusId isPost create =
        ⟨db, sess, .redirectHome .error⟩) := by
  refine ⟨fun db sess retrieve i name a₁ b₁ a₂ b₂ => rfl, by decide,
    fun db sess cursusId isPost create u h => by simp [buy_cursus, h],
    fun db sess cursusId isPost create u c hauth hact hfind => by
      simp [buy_cursus, hauth, hact, hfind]⟩

/-- Witness for C10 at a concrete state: the unauthenticated, non-activated
user is bounced to login by `buy_cursus` (while the same account just
finalized a payment in the second conjunct above). -/
theorem finalize_skips_auth_and_activation_witness :
    buy_cursus dbNoneOwned exSess exGhostUser 1 true (fun _ => none) =
      ⟨dbNoneOwned, exSess, .redirectLogin⟩ :=
  finalize_skips_auth_and_activation.2.2.1 dbNoneOwned exSess 1 true
    (fun _ => none) exGhostUser rfl

end KL
